import Mathlib

/-!
Verification of the chat-completions façade (`app/api/routes.py`,
`app/core/config.py`) of the `ai_assistant` repository.

The embedding is shallow: Python strings become Lean `String`s, the
upstream LLM invocation (`llm.ainvoke`) becomes an explicit function
parameter returning `Except String String` (exception message, or the
response's `content`), and each HTTP handler becomes a pure function on
its inputs.  Stream frames (`yield`ed SSE lines) are modelled
structurally: a `Frame.chunkData c` stands for the line
`data: <json.dumps c>\n\n`, `Frame.errorData m t` for the serialized
error object, and `Frame.sentinel` for the literal line
`data: [DONE]\n\n`.  The artificial `asyncio.sleep(0.01)` pacing and
JSON byte serialization are abstracted away; frame order and content are
preserved exactly.
-/

namespace AgentHub

/-- Python whitespace for `str.split()` with no arguments — the full
`Py_UNICODE_ISSPACE` set: tab through carriage return (0x09–0x0D), file
through unit separator (0x1C–0x1F), space, next line (0x85), no-break
space (0xA0), Ogham space mark (0x1680), the Zs run 0x2000–0x200A, line
separator (0x2028), paragraph separator (0x2029), narrow no-break space
(0x202F), medium mathematical space (0x205F) and ideographic space
(0x3000). -/
def pyIsSpace (c : Char) : Bool :=
  let n := c.toNat
  decide ((9 ≤ n ∧ n ≤ 13) ∨ (28 ≤ n ∧ n ≤ 32) ∨
    n = 0x85 ∨ n = 0xA0 ∨ n = 0x1680 ∨
    (0x2000 ≤ n ∧ n ≤ 0x200A) ∨
    n = 0x2028 ∨ n = 0x2029 ∨ n = 0x202F ∨ n = 0x205F ∨ n = 0x3000)

/-- Helper for `splitWS`: `acc` holds the characters of the word in
progress, most recent first. -/
def splitWSAux : List Char → List Char → List (List Char)
  | [], acc => if acc = [] then [] else [acc.reverse]
  | c :: cs, acc =>
    if pyIsSpace c then
      if acc = [] then splitWSAux cs []
      else acc.reverse :: splitWSAux cs []
    else splitWSAux cs (c :: acc)

/-- Python `str.split()` with no arguments, on the character list: splits on
runs of whitespace and drops empty fragments. -/
def splitWS (l : List Char) : List (List Char) :=
  splitWSAux l []

/-- `response.content.split()` from `generate` in `routes.py`, on strings. -/
def pyWords (s : String) : List String :=
  (splitWS s.data).map String.mk

/-- Concatenation of a list of strings (left to right). -/
def sjoin : List String → String
  | [] => ""
  | s :: ss => s ++ sjoin ss

/-- Words joined by single spaces (the whitespace-normalised text). -/
def joinSp : List String → String
  | [] => ""
  | [w] => w
  | w :: ws => w ++ " " ++ joinSp ws

/-- `ChatMessage` from `routes.py`: a role-tagged message. -/
structure ChatMessage where
  role : String
  content : String
deriving DecidableEq, Repr

/-- `ChatRequest` from `routes.py`.  `temperature` is modelled as a
rational (the source's float `0.7` is exactly representable). -/
structure ChatRequest where
  messages : List ChatMessage
  model : Option String := none
  stream : Bool := false
  temperature : Option ℚ := some (7/10)
  max_tokens : Option ℕ := none

/-- The LangChain message types used by `chat_completions`. -/
inductive LCMessage where
  | human (content : String)
  | ai (content : String)
  | system (content : String)
deriving DecidableEq, Repr

/-- The role dispatch of the message-conversion loop in
`chat_completions`: `user`→`HumanMessage`, `assistant`→`AIMessage`,
`system`→`SystemMessage`, anything else appends nothing. -/
def roleToLC (m : ChatMessage) : Option LCMessage :=
  if m.role = "user" then some (LCMessage.human m.content)
  else if m.role = "assistant" then some (LCMessage.ai m.content)
  else if m.role = "system" then some (LCMessage.system m.content)
  else none

/-- The message-conversion loop of `chat_completions` (`routes.py`
lines 56–67): each message appends at most one LangChain message, in
request order. -/
def toLangchain (msgs : List ChatMessage) : List LCMessage :=
  msgs.filterMap roleToLC

/-- Spec-side characterization: the three recognized roles of the
message-conversion loop. -/
def recognizedRole (m : ChatMessage) : Bool :=
  m.role == "user" || m.role == "assistant" || m.role == "system"

/-- Spec-side characterization: the conversion of a message with a
recognized role. -/
def mapRecognized (m : ChatMessage) : LCMessage :=
  if m.role = "user" then LCMessage.human m.content
  else if m.role = "assistant" then LCMessage.ai m.content
  else LCMessage.system m.content

/-- The fields of `Settings` (`config.py`) that the core reads; the
remaining fields (server/unused-model settings) are never consumed by
`get_llm` or the routes and are omitted. -/
structure Settings where
  openrouter_api_key : Option String := none
  openrouter_base_url : String := "https://openrouter.ai/api/v1"
  default_model : String := "anthropic/claude-3.5-sonnet"

/-- The `ChatOpenAI` handle built by `get_llm`: the keyword arguments of
the constructor call. -/
structure ClientHandle where
  base_url : String
  api_key : String
  model : String
  temperature : ℚ
deriving DecidableEq, Repr

/-- Python `or` between an optional model string and a default: both
`None` and the empty string are falsy, so both fall through to the
default.  This embeds `model_name or settings.default_model`
(`config.py` line 47) and `request.model or "langchain-agent-hub"`
(`routes.py` lines 74 and 81). -/
def pyOr (m : Option String) (d : String) : String :=
  match m with
  | none => d
  | some s => if s = "" then d else s

/-- `get_llm` from `config.py`: raises `ValueError` when no API key is
configured, otherwise builds a `ChatOpenAI` bound to the configured base
URL, the resolved model (`model_name or settings.default_model`, so an
empty id also falls back to the default) and temperature `0.7`. -/
def get_llm (s : Settings) (model_name : Option String := none) :
    Except String ClientHandle :=
  match s.openrouter_api_key with
  | none => .error "OPENROUTER_API_KEY is not set in the environment"
  | some key =>
    .ok { base_url := s.openrouter_base_url
        , api_key := key
        , model := pyOr model_name s.default_model
        , temperature := 7/10 }

/-- The model of `llm.ainvoke`: given the constructed handle and the
converted messages, the upstream call returns the response text or
raises (as `.error` with the exception's message). -/
def Upstream := ClientHandle → List LCMessage → Except String String

/-- The `message` object of a non-streaming `Choice`. -/
structure ChoiceMessage where
  role : String
  content : String
deriving DecidableEq, Repr

/-- One element of `ChatResponse.choices`. -/
structure Choice where
  index : ℕ
  message : ChoiceMessage
  finish_reason : String
deriving DecidableEq, Repr

/-- `ChatResponse` from `routes.py`. -/
structure ChatResponse where
  id : String
  object : String := "chat.completion"
  model : String
  choices : List Choice
deriving DecidableEq, Repr

/-- The `delta` object of a stream chunk: `{content: ...}` or `{}`. -/
structure Delta where
  content : Option String := none
deriving DecidableEq, Repr

/-- One element of a stream chunk's `choices`. -/
structure StreamChoice where
  index : ℕ
  delta : Delta
  finish_reason : Option String
deriving DecidableEq, Repr

/-- A streamed `chat.completion.chunk` object. -/
structure StreamChunk where
  id : String
  object : String
  model : String
  choices : List StreamChoice
deriving DecidableEq, Repr

/-- One frame yielded by `generate`: a serialized chunk line, a
serialized error line, or the literal `data: [DONE]` sentinel line. -/
inductive Frame where
  | chunkData (c : StreamChunk)
  | errorData (message : String) (type : String)
  | sentinel
deriving DecidableEq, Repr

/-- The per-word fragment chunk of `generate` (`routes.py` lines
108–119): delta content is the word plus one trailing space. -/
def fragChunk (model_name : String) (w : String) : StreamChunk :=
  { id := "chatcmpl-123456789"
  , object := "chat.completion.chunk"
  , model := model_name
  , choices := [⟨0, { content := some (w ++ " ") }, none⟩] }

/-- The final chunk of `generate` (`routes.py` lines 124–129): empty
delta, finish reason `"stop"`. -/
def finalChunk (model_name : String) : StreamChunk :=
  { id := "chatcmpl-123456789"
  , object := "chat.completion.chunk"
  , model := model_name
  , choices := [⟨0, {}, some "stop"⟩] }

/-- The `generate` coroutine of `_stream_response` (`routes.py` lines
99–135): one blocking upstream call, then one fragment frame per
whitespace-split word, the final chunk and the sentinel; an exception
yields a single error frame instead. -/
def generate (msgs : List LCMessage) (llm : ClientHandle)
    (model_name : String) (up : Upstream) : List Frame :=
  match up llm msgs with
  | .error e => [Frame.errorData e "error"]
  | .ok content =>
    ((pyWords content).map (fun w => Frame.chunkData (fragChunk model_name w)))
      ++ [Frame.chunkData (finalChunk model_name), Frame.sentinel]

/-- Outcome of the `POST /v1/chat/completions` handler: a JSON
completion, a streaming response (its full frame sequence), or an
`HTTPException(500, detail)`. -/
inductive HttpResult where
  | ok (resp : ChatResponse)
  | streaming (frames : List Frame)
  | error500 (detail : String)
deriving DecidableEq, Repr

/-- `chat_completions` from `routes.py` (lines 51–92): converts
messages, builds the client, then branches on `stream`; any exception
before the streaming response is constructed becomes a 500 whose detail
is the exception's message. -/
def chat_completions (s : Settings) (up : Upstream) (req : ChatRequest) :
    HttpResult :=
  let lcMsgs := toLangchain req.messages
  match get_llm s req.model with
  | .error e => .error500 e
  | .ok llm =>
    if req.stream then
      .streaming (generate lcMsgs llm (pyOr req.model "langchain-agent-hub") up)
    else
      match up llm lcMsgs with
      | .error e => .error500 e
      | .ok content =>
        .ok { id := "chatcmpl-" ++ "123456789"
            , model := pyOr req.model "langchain-agent-hub"
            , choices := [{ index := 0
                          , message := { role := "assistant", content := content }
                          , finish_reason := "stop" }] }

/-- One entry of the `/v1/models` body. -/
structure ModelEntry where
  id : String
  object : String
  created : ℕ
  owned_by : String
  permission : List String
  root : String
  parent : Option String
deriving DecidableEq, Repr

/-- The `/v1/models` body. -/
structure ModelList where
  object : String
  data : List ModelEntry
deriving DecidableEq, Repr

/-- `list_models` from `routes.py` (lines 32–48): a constant body, no
state read or written, so repeated calls are byte-identical. -/
def list_models : ModelList :=
  { object := "list"
  , data := [{ id := "langchain-agent-hub"
             , object := "model"
             , created := 1677610602
             , owned_by := "langchain-agent-hub"
             , permission := []
             , root := "langchain-agent-hub"
             , parent := none }] }

/-- The `/health` body. -/
structure HealthResponse where
  status : String
  service : String
deriving DecidableEq, Repr

/-- `health_check` from `routes.py` (lines 140–143): a constant body. -/
def health_check : HealthResponse :=
  { status := "healthy", service := "langchain-agent-hub" }

/-- The `delta.content` values carried by the chunk frames of a stream,
in emission order (frames without a content, the terminal chunk and the
sentinel among them, contribute nothing). -/
def fragmentContents (fs : List Frame) : List String :=
  fs.filterMap fun f =>
    match f with
    | Frame.chunkData c => (c.choices.head?).bind fun ch => ch.delta.content
    | _ => none

/-- Concatenation of character lists. -/
def concatL : List (List Char) → List Char
  | [] => []
  | l :: ls => l ++ concatL ls

theorem splitWSAux_allspace (l : List Char) (h : ∀ c ∈ l, pyIsSpace c = true) :
    splitWSAux l [] = [] := by
  induction l with
  | nil => simp [splitWSAux]
  | cons c cs ih =>
    have hc : pyIsSpace c = true := h c (List.mem_cons_self c cs)
    simp only [splitWSAux, hc, if_true, ite_true, reduceIte]
    exact ih fun d hd => h d (List.mem_cons_of_mem c hd)

theorem splitWSAux_concat (l : List Char) (acc : List Char) :
    concatL (splitWSAux l acc) =
      acc.reverse ++ l.filter (fun c => !pyIsSpace c) := by
  induction l generalizing acc with
  | nil =>
    by_cases hacc : acc = []
    · simp [splitWSAux, hacc, concatL]
    · simp [splitWSAux, hacc, concatL]
  | cons c cs ih =>
    by_cases hc : pyIsSpace c
    · by_cases hacc : acc = []
      · simp [splitWSAux, hc, hacc, List.filter, ih]
      · simp [splitWSAux, hc, hacc, List.filter, concatL, ih]
    · have hc' : pyIsSpace c = false := by simpa using hc
      simp [splitWSAux, hc', ih (c :: acc)]

theorem splitWS_concat (l : List Char) :
    concatL (splitWS l) = l.filter (fun c => !pyIsSpace c) := by
  simpa using splitWSAux_concat l []

theorem splitWSAux_words (l : List Char) (acc : List Char)
    (hacc : ∀ c ∈ acc, pyIsSpace c = false) :
    ∀ w ∈ splitWSAux l acc, w ≠ [] ∧ ∀ c ∈ w, pyIsSpace c = false := by
  induction l generalizing acc with
  | nil =>
    intro w hw
    by_cases h : acc = [] <;> simp [splitWSAux, h] at hw
    subst hw
    refine ⟨by simpa using h, fun c hc => hacc c (by simpa using hc)⟩
  | cons c cs ih =>
    intro w hw
    by_cases hc : pyIsSpace c
    · by_cases h : acc = []
      · simp only [splitWSAux, hc, h, ite_true, reduceIte] at hw
        exact ih [] (by simp) w hw
      · simp only [splitWSAux, hc, h, ite_true, ite_false, reduceIte,
          List.mem_cons] at hw
        rcases hw with rfl | hw
        · refine ⟨by simpa using h, fun d hd => hacc d (by simpa using hd)⟩
        · exact ih [] (by simp) w hw
    · simp only [splitWSAux, hc, ite_false, reduceIte] at hw
      refine ih (c :: acc) ?_ w hw
      intro d hd
      rcases List.mem_cons.mp hd with rfl | hd
      · simpa using hc
      · exact hacc d hd

theorem splitWS_words (l : List Char) :
    ∀ w ∈ splitWS l, w ≠ [] ∧ ∀ c ∈ w, pyIsSpace c = false :=
  splitWSAux_words l [] (by simp)

theorem sjoin_map_mk_data (ls : List (List Char)) :
    (sjoin (ls.map String.mk)).data = concatL ls := by
  induction ls with
  | nil => rfl
  | cons l ls ih =>
    show (String.mk l ++ sjoin (ls.map String.mk)).data = l ++ concatL ls
    show l ++ (sjoin (ls.map String.mk)).data = l ++ concatL ls
    rw [ih]

theorem sjoin_sep (ws : List String) (h : ws ≠ []) :
    sjoin (ws.map (fun w => w ++ " ")) = joinSp ws ++ " " := by
  induction ws with
  | nil => exact absurd rfl h
  | cons w ws ih =>
    cases ws with
    | nil =>
      show (w ++ " ") ++ "" = w ++ " "
      apply String.ext
      simp
    | cons x xs =>
      show (w ++ " ") ++ sjoin ((x :: xs).map (fun w => w ++ " ")) =
        (w ++ " " ++ joinSp (x :: xs)) ++ " "
      rw [ih (by simp)]
      apply String.ext
      simp

theorem fragmentContents_frames (ws : List String) (L : String) :
    fragmentContents
      ((ws.map (fun w => Frame.chunkData (fragChunk L w)))
        ++ [Frame.chunkData (finalChunk L), Frame.sentinel]) =
      ws.map (fun w => w ++ " ") := by
  induction ws with
  | nil => rfl
  | cons w ws ih =>
    simpa [fragmentContents, fragChunk, List.filterMap_cons] using ih

/-- C1: for every valid streaming request whose upstream call succeeds,
the emitted frames are exactly one fragment chunk per whitespace-split
word of the response (each carrying the word plus one trailing separator
space), then exactly one empty-delta terminal chunk with finish reason
`"stop"`, then the sentinel line; concatenating the fragment contents in
emission order gives the whitespace-normalised response text (single
spaces at the original internal whitespace breaks) plus the last
fragment's trailing separator space, the words carry exactly the
response's non-whitespace characters in order, and no word is empty or
contains whitespace. -/
theorem stream_success_frames (s : Settings) (up : Upstream)
    (req : ChatRequest) (llm : ClientHandle) (text : String)
    (hs : req.stream = true)
    (hg : get_llm s req.model = .ok llm)
    (hu : up llm (toLangchain req.messages) = .ok text) :
    ∃ frames,
      chat_completions s up req = .streaming frames ∧
      frames = ((pyWords text).map fun w =>
          Frame.chunkData (fragChunk (pyOr req.model "langchain-agent-hub") w))
        ++ [Frame.chunkData (finalChunk (pyOr req.model "langchain-agent-hub")),
            Frame.sentinel] ∧
      fragmentContents frames = (pyWords text).map (fun w => w ++ " ") ∧
      (pyWords text ≠ [] →
        sjoin (fragmentContents frames) = joinSp (pyWords text) ++ " ") ∧
      (sjoin (pyWords text)).data = text.data.filter (fun c => !pyIsSpace c) ∧
      (∀ w ∈ pyWords text, w ≠ "" ∧ ∀ c ∈ w.data, pyIsSpace c = false) := by
  refine ⟨_, ?_, rfl, fragmentContents_frames _ _, ?_, ?_, ?_⟩
  · simp only [chat_completions, hg, hs, if_true, generate, hu]
  · intro hne
    rw [fragmentContents_frames]
    exact sjoin_sep _ hne
  · rw [pyWords, sjoin_map_mk_data, splitWS_concat]
  · intro w hw
    rcases List.mem_map.mp hw with ⟨l, hl, rfl⟩
    obtain ⟨hne, hchars⟩ := splitWS_words _ l hl
    exact ⟨fun hcontr => hne (congrArg String.data hcontr), hchars⟩

/-- Witness for C1: a concrete streaming request against a mocked
upstream returning `"Hello  world"` (double internal space). -/
theorem stream_success_frames_witness :
    ∃ frames,
      chat_completions { openrouter_api_key := some "k" }
          (fun _ _ => .ok "Hello  world")
          { messages := [⟨"user", "Hi"⟩], model := some "m", stream := true } =
        .streaming frames ∧
      frames = [Frame.chunkData (fragChunk "m" "Hello"),
                Frame.chunkData (fragChunk "m" "world"),
                Frame.chunkData (finalChunk "m"), Frame.sentinel] ∧
      fragmentContents frames = ["Hello ", "world "] ∧
      ((["Hello", "world"] : List String) ≠ [] →
        sjoin (fragmentContents frames) = "Hello world ") ∧
      (sjoin ["Hello", "world"]).data = "Helloworld".data ∧
      (∀ w ∈ (["Hello", "world"] : List String),
        w ≠ "" ∧ ∀ c ∈ w.data, pyIsSpace c = false) :=
  stream_success_frames { openrouter_api_key := some "k" }
    (fun _ _ => .ok "Hello  world")
    { messages := [⟨"user", "Hi"⟩], model := some "m", stream := true }
    { base_url := "https://openrouter.ai/api/v1", api_key := "k"
    , model := "m", temperature := 7/10 }
    "Hello  world" rfl rfl rfl

/-- C3: the completion adapter maps the request's messages to the
upstream sequence preserving relative order, sending `user` to
`HumanMessage`, `assistant` to `AIMessage` and `system` to
`SystemMessage`, and silently dropping any message whose role is outside
those three recognized values. -/
theorem role_dispatch :
    (∀ msgs : List ChatMessage,
      toLangchain msgs = (msgs.filter recognizedRole).map mapRecognized) ∧
    (∀ c : String,
      roleToLC ⟨"user", c⟩ = some (LCMessage.human c) ∧
      roleToLC ⟨"assistant", c⟩ = some (LCMessage.ai c) ∧
      roleToLC ⟨"system", c⟩ = some (LCMessage.system c)) ∧
    (∀ m : ChatMessage, recognizedRole m = false → roleToLC m = none) := by
  refine ⟨?_, ?_, ?_⟩
  · intro msgs
    induction msgs with
    | nil => rfl
    | cons m rest ih =>
      simp only [toLangchain, List.filterMap_cons, List.filter_cons] at ih ⊢
      by_cases h1 : m.role = "user"
      · simp [roleToLC, recognizedRole, mapRecognized, h1, ih]
      · by_cases h2 : m.role = "assistant"
        · simp [roleToLC, recognizedRole, mapRecognized, h1, h2, ih]
        · by_cases h3 : m.role = "system"
          · simp [roleToLC, recognizedRole, mapRecognized, h1, h2, h3, ih]
          · simp [roleToLC, recognizedRole, h1, h2, h3, ih]
  · intro c
    refine ⟨rfl, rfl, rfl⟩
  · intro m hm
    simp only [recognizedRole, Bool.or_eq_false_iff, beq_eq_false_iff_ne,
      ne_eq] at hm
    simp [roleToLC, hm.1.1, hm.1.2, hm.2]

/-- C6 as amended: the `model` field of the non-streaming response, and
of every stream chunk, equals the request's own `model` when one is
given **and non-empty**; when the request's `model` is absent or the
empty string (falsy under Python `or`) it equals the service's own label
`"langchain-agent-hub"`, not the configured `default_model` setting.
The claim as stated (the request's own value whenever one is given)
fails at `model = some ""`; see the counterexample. -/
theorem response_model_label (s : Settings) (up : Upstream)
    (req : ChatRequest) :
    (∀ resp, chat_completions s up req = .ok resp →
      resp.model = pyOr req.model "langchain-agent-hub") ∧
    (∀ frames c, chat_completions s up req = .streaming frames →
      Frame.chunkData c ∈ frames →
      c.model = pyOr req.model "langchain-agent-hub") := by
  constructor
  · intro resp hresp
    simp only [chat_completions] at hresp
    cases hg : get_llm s req.model with
    | error e =>
      simp only [hg] at hresp
      exact HttpResult.noConfusion hresp
    | ok llm =>
      simp only [hg] at hresp
      cases hs : req.stream with
      | true => simp [hs] at hresp
      | false =>
        simp only [hs, Bool.false_eq_true, if_false] at hresp
        cases hu : up llm (toLangchain req.messages) with
        | error e =>
          simp only [hu] at hresp
          exact HttpResult.noConfusion hresp
        | ok content =>
          simp only [hu, HttpResult.ok.injEq] at hresp
          rw [← hresp]
  · intro frames c hresp hmem
    simp only [chat_completions] at hresp
    cases hg : get_llm s req.model with
    | error e =>
      simp only [hg] at hresp
      exact HttpResult.noConfusion hresp
    | ok llm =>
      simp only [hg] at hresp
      cases hs : req.stream with
      | false =>
        simp only [hs, Bool.false_eq_true, if_false] at hresp
        cases hu : up llm (toLangchain req.messages) with
        | error e =>
          simp only [hu] at hresp
          exact HttpResult.noConfusion hresp
        | ok content =>
          simp only [hu] at hresp
          exact HttpResult.noConfusion hresp
      | true =>
        simp only [hs, if_true, HttpResult.streaming.injEq] at hresp
        rw [← hresp] at hmem
        simp only [generate] at hmem
        cases hu : up llm (toLangchain req.messages) with
        | error e => simp [hu] at hmem
        | ok content =>
          simp only [hu] at hmem
          rcases List.mem_append.mp hmem with h | h
          · rcases List.mem_map.mp h with ⟨w, _, hw⟩
            cases hw
            rfl
          · rcases List.mem_cons.mp h with hfin | h
            · cases hfin
              rfl
            · rcases List.mem_cons.mp h with hsent | h
              · cases hsent
              · cases h

/-- Witness for C6, nonvacuity: a concrete request with no `model` field
is answered with the service's own label, not the configured
`default_model` (here `"configured-default"`). -/
theorem response_model_label_witness :
    ({ id := "chatcmpl-123456789"
     , object := "chat.completion"
     , model := "langchain-agent-hub"
     , choices := [{ index := 0
                   , message := { role := "assistant", content := "Hi" }
                   , finish_reason := "stop" }] } : ChatResponse).model =
      "langchain-agent-hub" :=
  (response_model_label
    { openrouter_api_key := some "k", default_model := "configured-default" }
    (fun _ _ => .ok "Hi")
    { messages := [⟨"user", "Hello"⟩] }).1 _ rfl

/-- Counterexample to C6 as stated: a request giving the (non-`None`)
model value `""` is answered with the service label
`"langchain-agent-hub"`, not with the request's own value `""` —
Python `request.model or "langchain-agent-hub"` treats the empty string
as falsy. -/
theorem response_model_label_cex :
    chat_completions { openrouter_api_key := some "k", default_model := "d" }
        (fun _ _ => .ok "Hi")
        { messages := [⟨"user", "Hello"⟩], model := some "" } =
      .ok { id := "chatcmpl-123456789"
          , object := "chat.completion"
          , model := "langchain-agent-hub"
          , choices := [{ index := 0
                        , message := { role := "assistant", content := "Hi" }
                        , finish_reason := "stop" }] } ∧
    ("langchain-agent-hub" : String) ≠ "" :=
  ⟨rfl, by decide⟩

/-- C8: the request's `temperature` and `max_tokens` are accepted but
never forwarded: two requests that agree on messages, model and the
stream flag (so differ at most in `temperature`/`max_tokens`) produce
identical results, and any client the factory builds has temperature
0.7. -/
theorem sampling_params_ignored (s : Settings) (up : Upstream)
    (r1 r2 : ChatRequest)
    (h1 : r1.messages = r2.messages)
    (h2 : r1.model = r2.model)
    (h3 : r1.stream = r2.stream) :
    chat_completions s up r1 = chat_completions s up r2 ∧
    ∀ llm, get_llm s r1.model = .ok llm → llm.temperature = 7/10 := by
  constructor
  · simp only [chat_completions, h1, h2, h3]
  · intro llm hllm
    cases hk : s.openrouter_api_key with
    | none => simp [get_llm, hk] at hllm
    | some key =>
      simp only [get_llm, hk, Except.ok.injEq] at hllm
      rw [← hllm]

/-- Witness for C8: two concrete requests differing only in
`temperature` and `max_tokens` get identical answers. -/
theorem sampling_params_ignored_witness :
    chat_completions { openrouter_api_key := some "k" }
        (fun _ _ => .ok "Hi")
        { messages := [⟨"user", "Hello"⟩], temperature := some (1/2)
        , max_tokens := some 5 } =
      chat_completions { openrouter_api_key := some "k" }
        (fun _ _ => .ok "Hi")
        { messages := [⟨"user", "Hello"⟩], temperature := some (9/10)
        , max_tokens := none } ∧
    ∀ llm, get_llm { openrouter_api_key := some "k" } none = .ok llm →
      llm.temperature = 7/10 :=
  sampling_params_ignored { openrouter_api_key := some "k" }
    (fun _ _ => .ok "Hi")
    { messages := [⟨"user", "Hello"⟩], temperature := some (1/2)
    , max_tokens := some 5 }
    { messages := [⟨"user", "Hello"⟩], temperature := some (9/10)
    , max_tokens := none }
    rfl rfl rfl

/-- C2: for every valid ChatRequest with `stream = false` whose upstream
call succeeds, the response has exactly one choice, whose message content
is exactly the text the model client returned, whose message role is
`"assistant"`, and whose finish reason is `"stop"` (the full response
object is pinned; the model field is resolved as in the source by Python
`or`: the request's model when non-empty, else the service label). -/
theorem nonstream_success (s : Settings) (up : Upstream) (req : ChatRequest)
    (llm : ClientHandle) (text : String)
    (hs : req.stream = false)
    (hg : get_llm s req.model = .ok llm)
    (hu : up llm (toLangchain req.messages) = .ok text) :
    chat_completions s up req =
      .ok { id := "chatcmpl-123456789"
          , object := "chat.completion"
          , model := pyOr req.model "langchain-agent-hub"
          , choices := [{ index := 0
                        , message := { role := "assistant", content := text }
                        , finish_reason := "stop" }] } := by
  simp only [chat_completions, hg, hs, Bool.false_eq_true, if_false, hu]
  rfl

/-- Witness for C2: a concrete non-streaming request against a mocked
upstream returning `"Hi there"`. -/
theorem nonstream_success_witness :
    chat_completions { openrouter_api_key := some "k" }
        (fun _ _ => .ok "Hi there")
        { messages := [⟨"user", "Hello"⟩], model := some "my-model" } =
      .ok { id := "chatcmpl-123456789"
          , object := "chat.completion"
          , model := "my-model"
          , choices := [{ index := 0
                        , message := { role := "assistant", content := "Hi there" }
                        , finish_reason := "stop" }] } :=
  nonstream_success { openrouter_api_key := some "k" }
    (fun _ _ => .ok "Hi there")
    { messages := [⟨"user", "Hello"⟩], model := some "my-model" }
    { base_url := "https://openrouter.ai/api/v1", api_key := "k"
    , model := "my-model", temperature := 7/10 }
    "Hi there" rfl rfl rfl

/-- C4: any exception in the non-streaming handler — the model-factory
configuration error or an upstream failure — becomes a 500 whose detail
is exactly the exception's message; with no credential configured, the
detail is the `OPENROUTER_API_KEY` message. -/
theorem nonstream_error_mapping (s : Settings) (up : Upstream)
    (req : ChatRequest) (h : req.stream = false) :
    (∀ e, get_llm s req.model = .error e →
      chat_completions s up req = .error500 e) ∧
    (∀ llm e, get_llm s req.model = .ok llm →
      up llm (toLangchain req.messages) = .error e →
      chat_completions s up req = .error500 e) ∧
    (s.openrouter_api_key = none →
      chat_completions s up req =
        .error500 "OPENROUTER_API_KEY is not set in the environment") := by
  refine ⟨?_, ?_, ?_⟩
  · intro e hg
    simp only [chat_completions, hg]
  · intro llm e hg hu
    simp only [chat_completions, hg, h, Bool.false_eq_true, if_false, hu]
  · intro hk
    simp only [chat_completions, get_llm, hk]

/-- Witness for C4: with no credential configured, a concrete request is
answered 500 with the missing-key message. -/
theorem nonstream_error_mapping_witness :
    chat_completions { openrouter_api_key := none }
        (fun _ _ => .ok "unused")
        { messages := [⟨"user", "Hello"⟩] } =
      .error500 "OPENROUTER_API_KEY is not set in the environment" :=
  (nonstream_error_mapping { openrouter_api_key := none }
    (fun _ _ => .ok "unused")
    { messages := [⟨"user", "Hello"⟩] } rfl).2.2 rfl

/-- C5 as amended: `get_llm` fails (raises) if and only if no credential
is configured; on success the handle is bound to the configured base
URL, the resolved model — the given id when it is non-empty, and the
configured default when the id is absent **or empty** (Python
`model_name or settings.default_model` treats `""` as falsy) — and the
fixed temperature 0.7.  The claim as stated (the given id, or the
default only when none is given) fails at `model_name = some ""`; see
the counterexample. -/
theorem get_llm_spec (s : Settings) (m : Option String) :
    ((∃ e, get_llm s m = .error e) ↔ s.openrouter_api_key = none) ∧
    (∀ key, s.openrouter_api_key = some key →
      get_llm s m = .ok { base_url := s.openrouter_base_url
                        , api_key := key
                        , model := pyOr m s.default_model
                        , temperature := 7/10 }) := by
  cases hk : s.openrouter_api_key with
  | none => simp [get_llm, hk]
  | some key =>
    refine ⟨by simp [get_llm, hk], ?_⟩
    intro key' hk'
    injection hk' with h
    subst h
    simp [get_llm, hk]

/-- Witness for C5: with a credential and no model id, the handle is
bound to the configured defaults. -/
theorem get_llm_spec_witness :
    get_llm { openrouter_api_key := some "k", default_model := "d" } none =
      .ok { base_url := "https://openrouter.ai/api/v1", api_key := "k"
          , model := "d", temperature := 7/10 } :=
  (get_llm_spec { openrouter_api_key := some "k", default_model := "d" }
    none).2 "k" rfl

/-- Counterexample to C5 as stated: with the non-`None` id
`model_name = some ""`, the source's `model_name or
settings.default_model` falls back to the configured default `"d"`;
the handle is not bound to the given (empty) id. -/
theorem get_llm_empty_model_cex :
    get_llm { openrouter_api_key := some "k", default_model := "d" }
        (some "") =
      .ok { base_url := "https://openrouter.ai/api/v1", api_key := "k"
          , model := "d", temperature := 7/10 } ∧
    ("d" : String) ≠ "" :=
  ⟨rfl, by decide⟩

/-- C7: when the upstream call of a streaming request raises (before any
fragment is produced), the stream is exactly one error-shaped event
carrying the error's message — no fragment, no terminal chunk, no
sentinel line. -/
theorem stream_upstream_error (s : Settings) (up : Upstream)
    (req : ChatRequest) (llm : ClientHandle) (e : String)
    (hs : req.stream = true)
    (hg : get_llm s req.model = .ok llm)
    (hu : up llm (toLangchain req.messages) = .error e) :
    chat_completions s up req = .streaming [Frame.errorData e "error"] ∧
    Frame.sentinel ∉ [Frame.errorData e "error"] ∧
    ∀ c : StreamChunk, Frame.chunkData c ∉ [Frame.errorData e "error"] := by
  refine ⟨?_, by simp, by simp⟩
  simp only [chat_completions, hg, hs, if_true, generate, hu]

/-- Witness for C7: a concrete streaming request whose mocked upstream
raises with message `"boom"`. -/
theorem stream_upstream_error_witness :
    chat_completions { openrouter_api_key := some "k" }
        (fun _ _ => .error "boom")
        { messages := [⟨"user", "Hello"⟩], stream := true } =
      .streaming [Frame.errorData "boom" "error"] ∧
    Frame.sentinel ∉ [Frame.errorData "boom" "error"] ∧
    ∀ c : StreamChunk, Frame.chunkData c ∉ [Frame.errorData "boom" "error"] :=
  stream_upstream_error { openrouter_api_key := some "k" }
    (fun _ _ => .error "boom")
    { messages := [⟨"user", "Hello"⟩], stream := true }
    { base_url := "https://openrouter.ai/api/v1", api_key := "k"
    , model := "anthropic/claude-3.5-sonnet", temperature := 7/10 }
    "boom" rfl rfl rfl

/-- C9: the `/v1/models` and `/health` handlers are constants of the
embedding (they read no state and take no input, so repeated calls
return the identical body): the models body holds exactly one entry,
with id `"langchain-agent-hub"` and `parent` null, and the health body
is `{status: "healthy", service: "langchain-agent-hub"}`. -/
theorem static_endpoints :
    list_models.object = "list" ∧
    list_models.data = [{ id := "langchain-agent-hub"
                        , object := "model"
                        , created := 1677610602
                        , owned_by := "langchain-agent-hub"
                        , permission := []
                        , root := "langchain-agent-hub"
                        , parent := none }] ∧
    list_models.data.length = 1 ∧
    (list_models.data.map fun e => e.id) = ["langchain-agent-hub"] ∧
    (list_models.data.map fun e => e.parent) = [none] ∧
    health_check = { status := "healthy", service := "langchain-agent-hub" } :=
  ⟨rfl, rfl, rfl, rfl, rfl, rfl⟩

/-- C10: a streaming request whose upstream text is empty or
whitespace-only yields zero fragment chunks, yet still exactly one
empty-delta terminal chunk with finish reason `"stop"` followed by the
sentinel line. -/
theorem stream_whitespace_only (s : Settings) (up : Upstream)
    (req : ChatRequest) (llm : ClientHandle) (text : String)
    (hs : req.stream = true)
    (hg : get_llm s req.model = .ok llm)
    (hu : up llm (toLangchain req.messages) = .ok text)
    (hws : ∀ c ∈ text.data, pyIsSpace c = true) :
    chat_completions s up req =
      .streaming [Frame.chunkData (finalChunk (pyOr req.model "langchain-agent-hub")),
                  Frame.sentinel] ∧
    fragmentContents
      [Frame.chunkData (finalChunk (pyOr req.model "langchain-agent-hub")),
       Frame.sentinel] = [] := by
  have hw : pyWords text = [] := by
    simp [pyWords, splitWS, splitWSAux_allspace text.data hws]
  refine ⟨?_, by simp [fragmentContents, finalChunk]⟩
  simp only [chat_completions, hg, hs, if_true, generate, hu, hw,
    List.map_nil, List.nil_append]

/-- Witness for C10: a concrete streaming request whose mocked upstream
returns the whitespace-only text `"  "`. -/
theorem stream_whitespace_only_witness :
    chat_completions { openrouter_api_key := some "k" }
        (fun _ _ => .ok "  ")
        { messages := [⟨"user", "Hello"⟩], stream := true } =
      .streaming [Frame.chunkData (finalChunk "langchain-agent-hub"),
                  Frame.sentinel] ∧
    fragmentContents [Frame.chunkData (finalChunk "langchain-agent-hub"),
                      Frame.sentinel] = [] :=
  stream_whitespace_only { openrouter_api_key := some "k" }
    (fun _ _ => .ok "  ")
    { messages := [⟨"user", "Hello"⟩], stream := true }
    { base_url := "https://openrouter.ai/api/v1", api_key := "k"
    , model := "anthropic/claude-3.5-sonnet", temperature := 7/10 }
    "  " rfl rfl rfl (by decide)

end AgentHub
